import Mathlib

/-!
Verification of the Autotype Key-Injection Engine
(src/os/linux/xsendstring.cpp) against its natural-language
specification.

The X11 server is modelled as an environment `XEnv` of pure query
functions (keyboard mapping, modifier map, keysym-to-keycode binding,
error-text lookup, XTEST availability) together with an oracle
`serverError` that delivers asynchronous protocol errors during the
injection pass.  The process-wide mutable state touched by the code
(the `atGlobals` error slot and the registered X error handler) is
threaded explicitly.  Machine integers (KeySym, KeyCode, modifier
masks, wchar_t code points) are modelled as `Nat`: the source never
relies on fixed-width overflow for these values.
-/

namespace XSendString

/-! ### X11 constants (from X11/X.h, X11/keysym.h, X11/XF86keysym.h) -/

/-- NoSymbol from X11/X.h. -/
def NoSymbol : Nat := 0

/-- ShiftMask = (1 shifted left 0) from X11/X.h. -/
def ShiftMask : Nat := 1

/-- Mod1MapIndex = 3 from X11/X.h: the row of the modifier map where Mod1 starts. -/
def Mod1MapIndex : Nat := 3

/-- XK_BackSpace from X11/keysymdef.h. -/
def XK_BackSpace : Nat := 0xFF08

/-- XK_Tab from X11/keysymdef.h. -/
def XK_Tab : Nat := 0xFF09

/-- XK_Linefeed from X11/keysymdef.h. -/
def XK_Linefeed : Nat := 0xFF0A

/-- XK_Return from X11/keysymdef.h. -/
def XK_Return : Nat := 0xFF0D

/-- XK_Escape from X11/keysymdef.h. -/
def XK_Escape : Nat := 0xFF1B

/-- XK_Delete from X11/keysymdef.h. -/
def XK_Delete : Nat := 0xFFFF

/-- XK_Mode_switch from X11/keysymdef.h. -/
def XK_Mode_switch : Nat := 0xFF7E

/-- XK_ISO_Level3_Shift from X11/keysymdef.h. -/
def XK_ISO_Level3_Shift : Nat := 0xFE03

/-! ### Data model -/

/-- The `struct _KeyPress` of xsendstring.cpp: a physical key code plus the
modifier-bit state to be held for it. -/
structure KeyPressInfo where
  code : Nat
  state : Nat
deriving DecidableEq

/-- The file-scope `struct AutotypeGlobals atGlobals`: a single mutable error
slot (flag plus descriptive text). -/
structure ATGlobals where
  error_detected : Bool
  errorString : String
deriving DecidableEq

/-- The server modifier map returned by XGetModifierMapping: `modifiermap i`
is the key code stored at flat index `i` (0 meaning no key code), and rows
are `max_keypermod` wide. -/
structure XModifierKeymap where
  max_keypermod : Nat
  modifiermap : Nat → Nat

/-- Modelled from the spec: the `pws_os::AutotypeMethod` enumeration
(declared in xsendstring.h, which is not among the sources).  The spec names
exactly two strategy preferences: prefer-native and force-fallback, the
latter being `ATMETHOD_XSENDKEYS`, the only enumerator the implementation
tests for. -/
inductive AutotypeMethod
  | ATMETHOD_AUTO
  | ATMETHOD_XSENDKEYS
deriving DecidableEq

/-- The process-wide X error-handler registration, as observed through
XSetErrorHandler: the Xlib default handler (what XSetErrorHandler(NULL)
installs), the `ErrorHandler` callback of xsendstring.cpp, or some other
handler previously registered by the process. -/
inductive XErrorHandlerState
  | xlibDefault
  | autotypeHandler
  | other (id : Nat)
deriving DecidableEq

/-- The X server and platform environment for one call, as a record of pure
query functions.  `keyboardMapping kc` models XGetKeyboardMapping(dpy, kc, 1, &n)
returning `none` for NULL or the keysym list (whose length is the reported
keysyms_per_keycode); `keysymToKeycode` models XKeysymToKeycode (0 = no
binding); `modmap` models XGetModifierMapping (none = NULL); `hasXTest`
models XQueryExtension(dpy, "XTEST", ...); `unicode2keysym` is the
unicode-to-keysym lookup table (returning NoSymbol when the point is not in
the table - the table source is not among the sources, and every claim
treats it abstractly); `getErrorText` models XGetErrorText;
`wcharBytes` models the locale-dependent wchar2bytes transliteration;
`keysymToString` models XKeysymToString (none = NULL); `serverError k`
optionally delivers an asynchronous X protocol error (request_code,
error_code) observed while sending keypress number `k`. -/
structure XEnv where
  displayOk : Bool
  focusWindow : Nat
  keysymToKeycode : Nat → Nat
  keyboardMapping : Nat → Option (List Nat)
  modmap : Option XModifierKeymap
  hasXTest : Bool
  unicode2keysym : Nat → Nat
  getErrorText : Nat → String
  wcharBytes : Nat → String
  keysymToString : Nat → Option String
  serverError : Nat → Option (Nat × Nat)

/-! ### The error callback (ErrorHandler, xsendstring.cpp lines 69-77) -/

/-- `ErrorHandler`: the X error callback.  It unconditionally sets the global
error flag and formats the error text from the request code (printed with %d)
and the XGetErrorText description of the error code, overwriting whatever the
slot held.  The source registers it with XSetErrorHandler for the duration of
the injection pass. -/
def ErrorHandler (env : XEnv) (request_code error_code : Nat) (g : ATGlobals) : ATGlobals :=
  let _ := g
  { error_detected := true
    errorString := "X error (" ++ toString request_code ++ "): " ++ env.getErrorText error_code }

/-! ### Code-point resolution (wchar2keysym, xsendstring.cpp lines 232-255) -/

/-- `wchar2keysym`: maps one input code point to a KeySym, mirroring the
source branch for branch.  Below 0x100: printable range returns the point
itself, then the control-character cases in source order (the 0x7F case is
kept even though the enclosing branch makes it unreachable), otherwise
NoSymbol.  At 0x100 and above: out-of-range and surrogate-gap test, then the
unicode2keysym table, then the Unicode keysym encoding (point OR 0x01000000). -/
def wchar2keysym (env : XEnv) (wc : Nat) : Nat :=
  if wc < 0x100 then
    if 0x20 ≤ wc then wc
    else if wc = 0x09 then XK_Tab
    else if wc = 0x0D then XK_Return
    else if wc = 0x0A then XK_Linefeed
    else if wc = 0x08 then XK_BackSpace
    else if wc = 0x7F then XK_Delete
    else if wc = 0x1B then XK_Escape
    else NoSymbol
  else if 0x10FFFF < wc ∨ (0x7E < wc ∧ wc < 0xA0) then NoSymbol
  else if env.unicode2keysym wc ≠ NoSymbol then env.unicode2keysym wc
  else wc ||| 0x01000000

/-! ### Modifier resolution (FindModifierMask and CalcModifiersForKeysym,
xsendstring.cpp lines 169-230) -/

/-- `FindModifierMask`: scans the server modifier map from the Mod1 row to
the end; for the first flat index holding a nonzero key code one of whose
keysyms equals `sym`, returns that index divided by max_keypermod (the
modifier row number); returns 0 if the map is NULL or nothing matches. -/
def FindModifierMask (env : XEnv) (sym : Nat) : Nat :=
  match env.modmap with
  | none => 0
  | some modmap =>
    let start := Mod1MapIndex * modmap.max_keypermod
    let last := 8 * modmap.max_keypermod
    match (List.range' start (last - start)).find? (fun i =>
      let kc := modmap.modifiermap i
      kc != 0 && ((env.keyboardMapping kc).elim false (fun symlist => symlist.contains sym))) with
    | some i => i / modmap.max_keypermod
    | none => 0

/-- One extension step of the candidate-mask list of CalcModifiersForKeysym:
if the discovered modifier row `modshift` is nonzero and its bit mask is not
already a candidate, append every existing candidate OR-ed with that mask
(std::transform with std::bit_or into extra_masks, then insert at the end);
otherwise leave the list unchanged.  Stated separately so the theorems can
name the construction. -/
def extendMasks (masks : List Nat) (modshift : Nat) : List Nat :=
  if modshift ≠ 0 ∧ (1 <<< modshift) ∉ masks then
    masks ++ masks.map (fun m => m ||| (1 <<< modshift))
  else masks

/-- The candidate modifier-mask list built by CalcModifiersForKeysym: starts
as the vector initializer (0, ShiftMask) - order is important - and is
extended once for XK_Mode_switch and once for XK_ISO_Level3_Shift, in that
order, each time only when FindModifierMask reports a nonzero row whose mask
is not yet present. -/
def buildMasks (env : XEnv) : List Nat :=
  [XK_Mode_switch, XK_ISO_Level3_Shift].foldl
    (fun masks s =>
      let modshift := FindModifierMask env s
      if modshift ≠ 0 ∧ (1 <<< modshift) ∉ masks then
        masks ++ masks.map (fun m => m ||| (1 <<< modshift))
      else masks)
    [0, ShiftMask]

/-- The `max_keysym_index` local of CalcModifiersForKeysym: the search over
the key code symbol list is bounded by the minimum of the candidate-mask
count and keysyms_per_keycode (the symbol list length). -/
def max_keysym_index (env : XEnv) (symlist : List Nat) : Nat :=
  min (buildMasks env).length symlist.length

/-- The `match_index` local of CalcModifiersForKeysym: the index of the
first of the first max_keysym_index symbols equal to the target, or
max_keysym_index when none matches (std::find on the raw symbol array). -/
def match_index (env : XEnv) (symlist : List Nat) (sym : Nat) : Nat :=
  (symlist.take (max_keysym_index env symlist)).findIdx (fun s => s == sym)

/-- `CalcModifiersForKeysym`: for a physical key code and target keysym,
fetch the key code symbol list; when present and nonempty, return the
candidate mask at the position of the first matching symbol, and 0 when no
position matches; return 0 as well when the mapping query fails. -/
def CalcModifiersForKeysym (env : XEnv) (code sym : Nat) : Nat :=
  match env.keyboardMapping code with
  | none => 0
  | some symlist =>
    if 0 < symlist.length then
      if match_index env symlist sym ≠ max_keysym_index env symlist then
        (buildMasks env).getD (match_index env symlist sym) 0
      else 0
    else 0

/-! ### Strategy selection (UseXTest, xsendstring.cpp lines 133-144) -/

/-- `UseXTest`: whether the server advertises the XTEST extension.  The
source caches the XQueryExtension answer in function-local statics; a single
call observes exactly the queried capability, which is what is modelled. -/
def UseXTest (env : XEnv) : Bool :=
  env.hasXTest

/-- The two injection strategies of the source: XTest_SendKeyEvent
(native extension path) and XSendKeys_SendKeyEvent (message-based path). -/
inductive Strategy
  | xtest
  | xsendkeys
deriving DecidableEq

/-! ### The resolution pass (DoSendString first loop, lines 307-339) -/

/-- The two ways one retained character can fail to resolve: no keysym
representation (wchar2keysym returned NoSymbol), or no physical key code
bound to its keysym (XKeysymToKeycode returned 0). -/
inductive ResolveFailure
  | unmappable (wc : Nat)
  | noKeycode (wc sym : Nat)
deriving DecidableEq

/-- Hexadecimal rendering of a code point, uppercase, padded to width 4
(the %04X directive used by the source messages). -/
def hex4 (n : Nat) : String :=
  let ds := (Nat.toDigits 16 n).map Char.toUpper
  String.mk (List.replicate (4 - ds.length) '0' ++ ds)

/-- The error text DoSendString formats for each resolution failure
(quotation marks of the source format strings elided). -/
def resolveFailureMessage (env : XEnv) : ResolveFailure → String
  | .unmappable wc =>
      "Cannot convert " ++ env.wcharBytes wc ++ " [U+" ++ hex4 wc ++
        "] to keysym. Aborting autotype"
  | .noKeycode wc sym =>
      "Could not get keycode for key char(" ++ env.wcharBytes wc ++ ") - sym(0x" ++
        hex4 sym ++ ") - str(" ++ (env.keysymToString sym).getD "NULL" ++
        "). Aborting autotype. If xmodmap -pk does not list this KeySym, you probably need to install an appropriate keyboard layout."

/-- Resolution of one retained character (one iteration of the first
DoSendString loop, after the vertical-tab filter): compute its keysym; when
the keysym exists, look up its key code and, when that succeeds, pair it with
the CalcModifiersForKeysym modifier state. -/
def resolveChar (env : XEnv) (wc : Nat) : Except ResolveFailure KeyPressInfo :=
  let sym := wchar2keysym env wc
  if sym ≠ NoSymbol then
    let code := env.keysymToKeycode sym
    if code ≠ 0 then
      Except.ok { code := code, state := CalcModifiersForKeysym env code sym }
    else
      Except.error (ResolveFailure.noKeycode wc sym)
  else
    Except.error (ResolveFailure.unmappable wc)

/-- The full resolution pass: vertical-tab characters are skipped outright;
every other character is resolved in order, and the first failure aborts the
pass with that failure (the source returns from DoSendString there). -/
def resolveAll (env : XEnv) : List Nat → Except ResolveFailure (List KeyPressInfo)
  | [] => Except.ok []
  | wc :: rest =>
    if wc = 0x0B then resolveAll env rest
    else
      match resolveChar env wc with
      | Except.error e => Except.error e
      | Except.ok kp =>
        match resolveAll env rest with
        | Except.error e => Except.error e
        | Except.ok kps => Except.ok (kp :: kps)

/-! ### The injection pass (DoSendString second loop, lines 355-363) -/

/-- The injection loop: before each keypress the global error flag is
tested and the loop stops once it is set; sending keypress number `idx`
may deliver an asynchronous server error, which invokes the registered
ErrorHandler callback on the global slot.  Returns the keypresses actually
sent and the final error slot.  The per-key pacing sleep has no modelled
observable effect. -/
def injectLoop (env : XEnv) : List KeyPressInfo → ATGlobals → Nat → List KeyPressInfo × ATGlobals
  | [], g, _ => ([], g)
  | kp :: rest, g, idx =>
    if g.error_detected then ([], g)
    else
      let g1 := match env.serverError idx with
                | some rcec => ErrorHandler env rcec.1 rcec.2 g
                | none => g
      let res := injectLoop env rest g1 (idx + 1)
      (kp :: res.1, res.2)

/-- The process-visible state DoSendString reads and writes besides its
locals: the registered X error handler and the atGlobals slot. -/
structure ProcState where
  handler : XErrorHandlerState
  globals : ATGlobals
deriving DecidableEq

/-- The observable outcome of one DoSendString call: the final process
state, the keypresses actually injected, the strategy selected for the
injection pass (none when the call aborted before selecting one), and
whether the call threw autotype_exception directly (display-open failure). -/
structure SendOutcome where
  state : ProcState
  injected : List KeyPressInfo
  strategyUsed : Option Strategy
  threw : Bool
deriving DecidableEq

/-- `DoSendString`: resets the error slot; aborts by throwing when the
display cannot be opened; runs the full resolution pass, aborting with the
recorded failure text and no injection when any retained character fails;
otherwise installs ErrorHandler, clears the error flag, selects the
injection strategy (XTest exactly when the extension is available and the
caller did not force ATMETHOD_XSENDKEYS), runs the injection loop, and
finally registers the NULL (default) error handler.  XTestGrabControl,
XFlush and XSync have no modelled observable effect. -/
def DoSendString (env : XEnv) (str : List Nat) (method : AutotypeMethod)
    (delayMS : Nat) (st : ProcState) : SendOutcome :=
  let _ := delayMS
  if env.displayOk = false then
    { state := { handler := st.handler
                 globals := { error_detected := true
                              errorString := "Could not open X display for autotyping" } }
      injected := []
      strategyUsed := none
      threw := true }
  else
    match resolveAll env str with
    | Except.error e =>
      { state := { handler := st.handler
                   globals := { error_detected := true
                                errorString := resolveFailureMessage env e } }
        injected := []
        strategyUsed := none
        threw := false }
    | Except.ok keypresses =>
      let strat := if UseXTest env ∧ method ≠ AutotypeMethod.ATMETHOD_XSENDKEYS
                   then Strategy.xtest else Strategy.xsendkeys
      let res := injectLoop env keypresses { error_detected := false, errorString := "" } 0
      { state := { handler := XErrorHandlerState.xlibDefault, globals := res.2 }
        injected := res.1
        strategyUsed := some strat
        threw := false }

/-- `pws_os::SendString`: runs DoSendString and fails (throws
autotype_exception, carrying atGlobals.errorString) when DoSendString threw
or left the error flag set; succeeds otherwise. -/
def SendString (env : XEnv) (str : List Nat) (method : AutotypeMethod)
    (delayMS : Nat) (st : ProcState) : Except String Unit × SendOutcome :=
  let o := DoSendString env str method delayMS st
  if o.threw then (Except.error o.state.globals.errorString, o)
  else if o.state.globals.error_detected then (Except.error o.state.globals.errorString, o)
  else (Except.ok (), o)

/-! ### Concrete test environments

A small concrete server environment used to evaluate the theorems on
explicit inputs: a US-like layout where key code 38 produces `a` unshifted
and `A` shifted, key code 50 produces only Left (0xFF51), Tab is bound to
key code 23, the XTEST extension is present, and no asynchronous errors
occur. -/

/-- A concrete environment for witnesses and counterexamples. -/
def env0 : XEnv :=
  { displayOk := true
    focusWindow := 7
    keysymToKeycode := fun sym =>
      if sym = 0x61 then 38 else if sym = 0x41 then 38
      else if sym = 0x62 then 50 else if sym = XK_Tab then 23 else 0
    keyboardMapping := fun kc =>
      if kc = 38 then some [0x61, 0x41] else if kc = 50 then some [0xFF51] else none
    modmap := none
    hasXTest := true
    unicode2keysym := fun _ => 0
    getErrorText := fun n => toString n
    wcharBytes := fun n => toString n
    keysymToString := fun _ => none
    serverError := fun _ => none }

/-- A variant of `env0` whose layout additionally binds keysym 0x80 to key
code 60 (used to evaluate the behaviour of the unreachable 0x7F-0x9F gap
test of wchar2keysym on a full call). -/
def env1 : XEnv :=
  { env0 with
    keysymToKeycode := fun sym =>
      if sym = 0x80 then 60 else env0.keysymToKeycode sym
    keyboardMapping := fun kc =>
      if kc = 60 then some [0x80] else env0.keyboardMapping kc }

/-- A concrete pre-call process state whose registered error handler is a
non-default handler previously installed by the process. -/
def st0 : ProcState :=
  { handler := XErrorHandlerState.other 3
    globals := { error_detected := false, errorString := "" } }

/-- A cleared error slot. -/
def atg0 : ATGlobals := { error_detected := false, errorString := "" }

/-! ### Helper lemmas -/

/-- A keysym produced by the Unicode encoding convention is never NoSymbol:
bit 24 of `wc OR 0x01000000` is always set. -/
theorem or_unicodeBit_ne_zero (wc : Nat) : wc ||| 0x01000000 ≠ 0 := by
  intro h
  have h2 : (wc ||| 0x01000000).testBit 24 = true := by
    rw [Nat.testBit_or]
    have h3 : Nat.testBit 0x01000000 24 = true := by decide
    simp [h3]
  rw [h] at h2
  simp at h2

/-- The resolution pass is invariant under deleting vertical-tab characters
from its input: the loop itself skips them. -/
theorem resolveAll_filter (env : XEnv) (l : List Nat) :
    resolveAll env (l.filter (fun c => c ≠ 0x0B)) = resolveAll env l := by
  have key : ∀ m : List Nat,
      resolveAll env (m.filter (fun c => !decide (c = 0x0B))) = resolveAll env m := by
    intro m
    induction m with
    | nil => rfl
    | cons c rest ih =>
      by_cases hc : c = 0x0B
      · subst hc
        simp [List.filter_cons, resolveAll, ih]
      · simp [List.filter_cons, resolveAll, hc, ih]
  have hfun : (fun c : Nat => decide (c ≠ 0x0B)) = (fun c : Nat => !decide (c = 0x0B)) := by
    funext c
    simp
  simpa [hfun] using key l

/-- If some retained (non-vertical-tab) character of the input fails to
resolve, the whole resolution pass fails. -/
theorem resolveAll_error_of_mem (env : XEnv) {l : List Nat} {wc : Nat}
    (hmem : wc ∈ l) (hvb : wc ≠ 0x0B) (hfail : (resolveChar env wc).isOk = false) :
    (resolveAll env l).isOk = false := by
  induction l with
  | nil => cases hmem
  | cons c rest ih =>
    rcases List.mem_cons.mp hmem with rfl | hmem2
    · rw [resolveAll, if_neg hvb]
      cases hrc : resolveChar env wc with
      | error e => simp [Except.isOk, Except.toBool]
      | ok kp => rw [hrc] at hfail; simp [Except.isOk, Except.toBool] at hfail
    · by_cases hc : c = 0x0B
      · rw [resolveAll, if_pos hc]; exact ih hmem2
      · rw [resolveAll, if_neg hc]
        cases hrc : resolveChar env c with
        | error e => simp [Except.isOk, Except.toBool]
        | ok kp =>
          cases hra : resolveAll env rest with
          | error e => simp [Except.isOk, Except.toBool]
          | ok kps =>
            have h2 := ih hmem2
            rw [hra] at h2
            simp [Except.isOk, Except.toBool] at h2

/-! ### Claim C3: the error callback and the first error -/

/-- Claim C3 counterexample: the installed server error callback does NOT
leave the recorded error text unchanged once the error flag is set.  After a
first error (request code 1, error code 5) the flag is set; a second
invocation (request code 2, error code 6) changes the recorded state, because
ErrorHandler unconditionally overwrites the text. -/
theorem claim_C3_cex :
    (ErrorHandler env0 1 5 atg0).error_detected = true
    ∧ ErrorHandler env0 2 6 (ErrorHandler env0 1 5 atg0) ≠ ErrorHandler env0 1 5 atg0 := by
  refine ⟨rfl, ?_⟩
  intro h
  have h2 := congrArg ATGlobals.errorString h
  revert h2
  decide

/-- Claim C3 (amended): every invocation of the callback sets the error flag
(so the flag, once set, stays set unchanged), but the error text is
overwritten each time - the recorded state after several invocations is that
of the most recent error, not the first. -/
theorem claim_C3_amended (env : XEnv) (rc ec rc2 ec2 : Nat) (g : ATGlobals) :
    (ErrorHandler env rc ec g).error_detected = true
    ∧ ErrorHandler env rc ec (ErrorHandler env rc2 ec2 g) = ErrorHandler env rc ec g :=
  ⟨rfl, rfl⟩

/-! ### Claim C4: restoration of the error handler -/

/-- Claim C4 counterexample: the call does NOT restore the previously
registered error handler on every exit path.  With a non-default handler
registered before the call, a successful call leaves the Xlib default
handler registered (XSetErrorHandler(NULL)), not the prior one. -/
theorem claim_C4_cex :
    (DoSendString env0 [] AutotypeMethod.ATMETHOD_AUTO 0 st0).state.handler =
      XErrorHandlerState.xlibDefault
    ∧ st0.handler = XErrorHandlerState.other 3
    ∧ XErrorHandlerState.xlibDefault ≠ XErrorHandlerState.other 3 := by
  refine ⟨rfl, rfl, by decide⟩

/-- Claim C4 (amended): exit paths taken before the handler is installed
(display-open failure, resolution failure) leave the registration unchanged;
the paths that install the handler always end by registering the Xlib
default handler (XSetErrorHandler(NULL)) rather than the previously
registered callback.  The pre-call registration is therefore preserved
exactly when it was the default handler. -/
theorem claim_C4_amended (env : XEnv) (str : List Nat) (method : AutotypeMethod)
    (delayMS : Nat) (st : ProcState) :
    (DoSendString env str method delayMS st).state.handler =
      if (DoSendString env str method delayMS st).strategyUsed.isSome
      then XErrorHandlerState.xlibDefault else st.handler := by
  unfold DoSendString
  by_cases hd : env.displayOk = false
  · simp [hd]
  · cases hra : resolveAll env str with
    | error e => simp [hd, hra]
    | ok kps => simp [hd, hra]

/-! ### Claim C8: vertical-tab filtering is a pure deletion -/

/-- Claim C8: for every environment, strategy, delay and pre-state, a call
on an input string behaves identically (same final state, same injected
keypresses, same strategy, same thrown-or-not result) to the call on the
same string with every vertical-tab character deleted. -/
theorem claim_C8 (env : XEnv) (str : List Nat) (method : AutotypeMethod)
    (delayMS : Nat) (st : ProcState) :
    DoSendString env str method delayMS st =
      DoSendString env (str.filter (fun c => c ≠ 0x0B)) method delayMS st := by
  unfold DoSendString
  rw [resolveAll_filter]

/-! ### Claim C1: all-or-nothing resolution -/

/-- Claim C1: for every environment, input string, strategy, delay and
pre-state, if any retained character (after vertical-tab filtering) fails to
resolve - to a keysym or to a physical key code - then zero keypresses are
injected, no injection strategy is ever selected (the injection phase is
never entered), and the call fails. -/
theorem claim_C1 (env : XEnv) (str : List Nat) (method : AutotypeMethod)
    (delayMS : Nat) (st : ProcState) (wc : Nat)
    (hmem : wc ∈ str.filter (fun c => c ≠ 0x0B))
    (hfail : (resolveChar env wc).isOk = false) :
    (DoSendString env str method delayMS st).injected = []
    ∧ (DoSendString env str method delayMS st).strategyUsed = none
    ∧ ((SendString env str method delayMS st).1).isOk = false := by
  obtain ⟨hmem2, hvb⟩ := List.mem_filter.mp hmem
  have hvb2 : wc ≠ 0x0B := by simpa using hvb
  have hres : (resolveAll env str).isOk = false := resolveAll_error_of_mem env hmem2 hvb2 hfail
  have key : (DoSendString env str method delayMS st).injected = []
      ∧ (DoSendString env str method delayMS st).strategyUsed = none
      ∧ (DoSendString env str method delayMS st).state.globals.error_detected = true := by
    unfold DoSendString
    by_cases hd : env.displayOk = false
    · simp [hd]
    · cases hra : resolveAll env str with
      | error e => simp [hd, hra]
      | ok kps => rw [hra] at hres; simp [Except.isOk, Except.toBool] at hres
  refine ⟨key.1, key.2.1, ?_⟩
  unfold SendString
  by_cases ht : (DoSendString env str method delayMS st).threw
  · simp [ht, Except.isOk, Except.toBool]
  · simp [ht, key.2.2, Except.isOk, Except.toBool]

/-- Claim C1 witness: the control character 0x01 is retained by the filter
and fails to resolve, and the concrete call on the one-character string
0x01 injects nothing. -/
theorem claim_C1_witness :
    ((0x01 : Nat) ∈ ([0x01] : List Nat).filter (fun c => c ≠ 0x0B))
    ∧ (DoSendString env0 [0x01] AutotypeMethod.ATMETHOD_AUTO 0 st0).injected = [] :=
  ⟨by decide,
   (claim_C1 env0 [0x01] AutotypeMethod.ATMETHOD_AUTO 0 st0 0x01 (by decide) (by decide)).1⟩

/-! ### Claim C6: strategy selection -/

/-- Claim C6: whenever the call reaches the injection phase (display opened
and full resolution succeeded), the strategy it selects is the native XTest
path exactly when the server reports the XTEST capability and the caller did
not force ATMETHOD_XSENDKEYS; in every other case the message-based
XSendKeys path is selected, and in particular preferring native with the
capability unavailable falls back transparently instead of failing (the call
does not throw). -/
theorem claim_C6 (env : XEnv) (str : List Nat) (method : AutotypeMethod)
    (delayMS : Nat) (st : ProcState)
    (hdisp : env.displayOk = true)
    (hres : (resolveAll env str).isOk = true) :
    (DoSendString env str method delayMS st).strategyUsed =
      some (if UseXTest env ∧ method ≠ AutotypeMethod.ATMETHOD_XSENDKEYS
            then Strategy.xtest else Strategy.xsendkeys)
    ∧ (DoSendString env str method delayMS st).threw = false := by
  unfold DoSendString
  cases hra : resolveAll env str with
  | error e => rw [hra] at hres; simp [Except.isOk, Except.toBool] at hres
  | ok kps => simp [hdisp, hra]

/-- Claim C6 witness: in the concrete environment the XTEST capability is
reported available, yet forcing ATMETHOD_XSENDKEYS selects the message-based
path. -/
theorem claim_C6_witness :
    UseXTest env0 = true
    ∧ (DoSendString env0 [] AutotypeMethod.ATMETHOD_XSENDKEYS 0 st0).strategyUsed =
        some Strategy.xsendkeys := by
  refine ⟨rfl, ?_⟩
  have h := (claim_C6 env0 [] AutotypeMethod.ATMETHOD_XSENDKEYS 0 st0 rfl rfl).1
  simpa using h

/-! ### Claim C9: exact characterization of wchar2keysym -/

/-- Claim C9: wchar2keysym is total and returns NoSymbol exactly on control
characters below 0x20 outside the set (backspace, tab, linefeed, carriage
return, escape) and on points above 0x10FFFF; every point in 0x20-0xFF
(including the 0x7F-0x9F gap) maps to itself; every other point up to
0x10FFFF maps to the table entry when the table has one and otherwise to the
point OR-ed with 0x01000000. -/
theorem claim_C9 (env : XEnv) (wc : Nat) :
    (wchar2keysym env wc =
      if wc < 0x20 then
        (if wc = 0x08 then XK_BackSpace
         else if wc = 0x09 then XK_Tab
         else if wc = 0x0A then XK_Linefeed
         else if wc = 0x0D then XK_Return
         else if wc = 0x1B then XK_Escape
         else NoSymbol)
      else if wc ≤ 0xFF then wc
      else if wc ≤ 0x10FFFF then
        (if env.unicode2keysym wc ≠ NoSymbol then env.unicode2keysym wc
         else wc ||| 0x01000000)
      else NoSymbol)
    ∧ (wchar2keysym env wc = NoSymbol ↔
        ((wc < 0x20 ∧ wc ≠ 0x08 ∧ wc ≠ 0x09 ∧ wc ≠ 0x0A ∧ wc ≠ 0x0D ∧ wc ≠ 0x1B)
          ∨ 0x10FFFF < wc)) := by
  have hchar : wchar2keysym env wc =
      if wc < 0x20 then
        (if wc = 0x08 then XK_BackSpace
         else if wc = 0x09 then XK_Tab
         else if wc = 0x0A then XK_Linefeed
         else if wc = 0x0D then XK_Return
         else if wc = 0x1B then XK_Escape
         else NoSymbol)
      else if wc ≤ 0xFF then wc
      else if wc ≤ 0x10FFFF then
        (if env.unicode2keysym wc ≠ NoSymbol then env.unicode2keysym wc
         else wc ||| 0x01000000)
      else NoSymbol := by
    unfold wchar2keysym
    split_ifs <;> first
      | rfl
      | omega
  refine ⟨hchar, ?_⟩
  rw [hchar]
  constructor
  · intro h
    by_cases h1 : wc < 0x20
    · rw [if_pos h1] at h
      split_ifs at h with c8 c9 ca cd cesc <;>
        simp_all [NoSymbol, XK_Tab, XK_Return, XK_Linefeed, XK_BackSpace, XK_Escape]
    · rw [if_neg h1] at h
      by_cases h2 : wc ≤ 0xFF
      · rw [if_pos h2] at h
        rw [NoSymbol] at h
        omega
      · rw [if_neg h2] at h
        by_cases h3 : wc ≤ 0x10FFFF
        · rw [if_pos h3] at h
          split_ifs at h with hu
          · exact absurd h hu
          · exact absurd h (or_unicodeBit_ne_zero wc)
        · right; omega
  · intro h
    rcases h with ⟨h1, h8, h9, ha, hd, hesc⟩ | h1
    · simp [h1, h8, h9, ha, hd, hesc]
    · have h2 : ¬ wc < 0x20 := by omega
      have h3 : ¬ wc ≤ 0xFF := by omega
      have h4 : ¬ wc ≤ 0x10FFFF := by omega
      simp [h2, h3, h4]

/-! ### Claim C2: the 0x7F-0x9F gap (code bug) -/

/-- Claim C2 evaluation (the claim is right; the code has a slip): for every
environment the code points 0x7F, 0x80 and 0x9F - and in general the whole
0x7F-0x9F gap - resolve to themselves as keysyms instead of failing, because
the printable-range branch of wchar2keysym returns every point in 0x20-0xFF
before the gap test on line 248 (which is unreachable: it is guarded by
wc at or above 0x100).  In an environment whose layout binds keysym 0x80 to a
key code, the full call then injects a keypress for the input 0x80 instead of
aborting with UnmappableCharacter. -/
theorem claim_C2_bug :
    (∀ env : XEnv, ∀ wc : Nat, 0x7F ≤ wc → wc ≤ 0x9F →
      wchar2keysym env wc = wc ∧ wchar2keysym env wc ≠ NoSymbol)
    ∧ (DoSendString env1 [0x80] AutotypeMethod.ATMETHOD_AUTO 0 st0).injected =
        [{ code := 60, state := 0 }] := by
  constructor
  · intro env wc h1 h2
    have hval : wchar2keysym env wc = wc := by
      unfold wchar2keysym
      have hlt : wc < 0x100 := by omega
      have hge : 0x20 ≤ wc := by omega
      rw [if_pos hlt, if_pos hge]
    refine ⟨hval, ?_⟩
    rw [hval, NoSymbol]
    omega
  · rfl

/-! ### Modifier-search lemmas and claims C5, C7, C10 -/

/-- The fold that builds the candidate list performs exactly one extendMasks
step for XK_Mode_switch followed by one for XK_ISO_Level3_Shift, starting
from (0, ShiftMask). -/
theorem buildMasks_eq_extend (env : XEnv) :
    buildMasks env =
      extendMasks (extendMasks [0, ShiftMask] (FindModifierMask env XK_Mode_switch))
        (FindModifierMask env XK_ISO_Level3_Shift) := rfl

/-- An extendMasks step only ever appends: the existing candidates stay in
place, in order, at the front. -/
theorem extendMasks_append (masks : List Nat) (modshift : Nat) :
    ∃ t, extendMasks masks modshift = masks ++ t := by
  unfold extendMasks
  split_ifs
  · exact ⟨_, rfl⟩
  · exact ⟨[], by simp⟩

/-- The first two candidate combinations are always no-modifier and shift,
in that order. -/
theorem buildMasks_take_two (env : XEnv) :
    (buildMasks env).take 2 = [0, ShiftMask] := by
  rw [buildMasks_eq_extend]
  obtain ⟨t2, h2⟩ := extendMasks_append
    (extendMasks [0, ShiftMask] (FindModifierMask env XK_Mode_switch))
    (FindModifierMask env XK_ISO_Level3_Shift)
  obtain ⟨t1, h1⟩ := extendMasks_append [0, ShiftMask] (FindModifierMask env XK_Mode_switch)
  rw [h2, h1, List.append_assoc, List.take_append_eq_append_take]
  simp

/-- The match index never exceeds the search bound. -/
theorem match_index_le (env : XEnv) (symlist : List Nat) (sym : Nat) :
    match_index env symlist sym ≤ max_keysym_index env symlist := by
  unfold match_index
  have h := @List.findIdx_le_length Nat (fun s => s == sym)
    (symlist.take (max_keysym_index env symlist))
  rw [List.length_take] at h
  exact le_trans h (min_le_left _ _)

/-- The match index is the smallest in-bound position whose keysym equals
the target. -/
theorem match_index_eq_of_first (env : XEnv) (symlist : List Nat) (sym : Nat) (j : Nat)
    (hj : j < max_keysym_index env symlist)
    (hmatch : symlist.getD j 0 = sym)
    (hfirst : ∀ i, i < j → symlist.getD i 0 ≠ sym) :
    match_index env symlist sym = j := by
  unfold match_index
  have hjlen : j < symlist.length := lt_of_lt_of_le hj (min_le_right _ _)
  have htake : j < (symlist.take (max_keysym_index env symlist)).length := by
    rw [List.length_take]
    exact lt_min hj hjlen
  rw [List.findIdx_eq htake]
  constructor
  · have hgj : symlist[j] = sym := by
      rw [← List.getD_eq_getElem symlist 0 hjlen]
      exact hmatch
    simp [List.getElem_take, hgj]
  · intro i hi
    have hilen : i < symlist.length := lt_trans hi hjlen
    have hne : symlist[i] ≠ sym := by
      rw [← List.getD_eq_getElem symlist 0 hilen]
      exact hfirst i hi
    simp [List.getElem_take, hne]

/-- Claim C5: the modifier search prefers the narrowest modifier set.  The
candidate list starts (no modifier, shift) in that order; it is extended
once per extra-shift keysym (Mode_switch then ISO_Level3_Shift), each step
appending the OR-ed combinations only when the discovered modifier row is
nonzero and its mask is not already a candidate (extendMasks); and for the
given key code the returned candidate is the one at the smallest symbol
index matching the target. -/
theorem claim_C5 (env : XEnv) (code sym : Nat) (symlist : List Nat) (j : Nat)
    (h : env.keyboardMapping code = some symlist)
    (hj : j < max_keysym_index env symlist)
    (hmatch : symlist.getD j 0 = sym)
    (hfirst : ∀ i, i < j → symlist.getD i 0 ≠ sym) :
    (buildMasks env).take 2 = [0, ShiftMask]
    ∧ buildMasks env =
        extendMasks (extendMasks [0, ShiftMask] (FindModifierMask env XK_Mode_switch))
          (FindModifierMask env XK_ISO_Level3_Shift)
    ∧ CalcModifiersForKeysym env code sym = (buildMasks env).getD j 0 := by
  refine ⟨buildMasks_take_two env, buildMasks_eq_extend env, ?_⟩
  have hmi := match_index_eq_of_first env symlist sym j hj hmatch hfirst
  have hlen : 0 < symlist.length :=
    Nat.lt_of_le_of_lt (Nat.zero_le j) (lt_of_lt_of_le hj (min_le_right _ _))
  have hne : j ≠ max_keysym_index env symlist := Nat.ne_of_lt hj
  unfold CalcModifiersForKeysym
  rw [h]
  simp [hlen, hne, hmi]

/-- Claim C5 witness: on the concrete layout, resolving the shifted letter
A (0x41) on key code 38 returns the candidate at index 1, which is
ShiftMask - shift is only chosen because index 0 (no modifier) does not
match. -/
theorem claim_C5_witness :
    env0.keyboardMapping 38 = some [0x61, 0x41]
    ∧ CalcModifiersForKeysym env0 38 0x41 = (buildMasks env0).getD 1 0
    ∧ (buildMasks env0).getD 1 0 = ShiftMask := by
  refine ⟨rfl, ?_, by decide⟩
  exact (claim_C5 env0 38 0x41 [0x61, 0x41] 1 rfl (by decide) (by decide)
    (fun i hi => by
      have h0 : i = 0 := by omega
      subst h0
      decide)).2.2

/-- Claim C7: best-effort modifier default.  When no in-bound candidate
index matches the target keysym - including when the keyboard-mapping query
returns no symbol list at all - CalcModifiersForKeysym returns 0 (no
modifiers) rather than failing, and a character resolving to that keysym and
key code still resolves successfully, with no modifiers, so the call
proceeds. -/
theorem claim_C7 (env : XEnv) (code sym : Nat)
    (hnomatch : ∀ symlist, env.keyboardMapping code = some symlist →
       ∀ i, i < max_keysym_index env symlist → symlist.getD i 0 ≠ sym) :
    CalcModifiersForKeysym env code sym = 0
    ∧ (∀ wc, wchar2keysym env wc = sym → sym ≠ NoSymbol →
        env.keysymToKeycode sym = code → code ≠ 0 →
        resolveChar env wc = Except.ok { code := code, state := 0 }) := by
  have hcalc : CalcModifiersForKeysym env code sym = 0 := by
    unfold CalcModifiersForKeysym
    cases hkm : env.keyboardMapping code with
    | none => rfl
    | some symlist =>
      by_cases hlen : 0 < symlist.length
      · have hmi : match_index env symlist sym = max_keysym_index env symlist := by
          unfold match_index
          have hall : ∀ x ∈ symlist.take (max_keysym_index env symlist),
              (x == sym) = false := by
            intro x hx
            obtain ⟨n, hn, hxn⟩ := List.getElem_of_mem hx
            have hn1 := hn
            rw [List.length_take] at hn1
            have hn2 : n < max_keysym_index env symlist :=
              lt_of_lt_of_le hn1 (min_le_left _ _)
            have hnlen : n < symlist.length := lt_of_lt_of_le hn1 (min_le_right _ _)
            have hne : symlist.getD n 0 ≠ sym := hnomatch symlist hkm n hn2
            rw [List.getD_eq_getElem symlist 0 hnlen] at hne
            rw [← hxn]
            simp [List.getElem_take, hne]
          have hlen2 : (symlist.take (max_keysym_index env symlist)).length =
              max_keysym_index env symlist := by
            rw [List.length_take]
            exact min_eq_left (min_le_right _ _)
          rw [List.findIdx_eq_length.mpr hall, hlen2]
        simp [hlen, hmi]
      · simp [hlen]
  refine ⟨hcalc, ?_⟩
  intro wc hsymeq hsym hcode hc0
  simp only [resolveChar, hsymeq]
  rw [if_pos hsym, hcode, if_pos hc0, hcalc]

/-- Claim C7 witness: on the concrete layout, key code 50 produces only
keysym 0xFF51, so resolving the letter b (0x62, bound to key code 50)
returns no modifiers and the character still resolves. -/
theorem claim_C7_witness :
    CalcModifiersForKeysym env0 50 0x62 = 0
    ∧ resolveChar env0 0x62 = Except.ok { code := 50, state := 0 } := by
  have hno : ∀ symlist, env0.keyboardMapping 50 = some symlist →
      ∀ i, i < max_keysym_index env0 symlist → symlist.getD i 0 ≠ 0x62 := by
    intro symlist hsym i hi
    have hs : ([0xFF51] : List Nat) = symlist := Option.some.inj hsym
    subst hs
    have hmax : max_keysym_index env0 [0xFF51] = 1 := by decide
    rw [hmax] at hi
    have h0 : i = 0 := by omega
    subst h0
    decide
  exact ⟨(claim_C7 env0 50 0x62 hno).1,
         (claim_C7 env0 50 0x62 hno).2 0x62 rfl (by decide) rfl (by decide)⟩

/-- Claim C10: in-bounds mask lookup.  The match index never exceeds the
search bound (the minimum of the candidate count and keysyms_per_keycode),
and whenever a match is found it is a valid index into both the candidate
mask list and the symbol list, and the returned modifier mask really is the
candidate stored at that index. -/
theorem claim_C10 (env : XEnv) (code sym : Nat) (symlist : List Nat)
    (h : env.keyboardMapping code = some symlist) :
    match_index env symlist sym ≤ max_keysym_index env symlist
    ∧ (match_index env symlist sym < max_keysym_index env symlist →
        match_index env symlist sym < (buildMasks env).length
        ∧ match_index env symlist sym < symlist.length
        ∧ CalcModifiersForKeysym env code sym =
            (buildMasks env).getD (match_index env symlist sym) 0) := by
  refine ⟨match_index_le env symlist sym, fun hlt => ?_⟩
  have h1 : match_index env symlist sym < (buildMasks env).length :=
    lt_of_lt_of_le hlt (min_le_left _ _)
  have h2 : match_index env symlist sym < symlist.length :=
    lt_of_lt_of_le hlt (min_le_right _ _)
  have hlen : 0 < symlist.length := Nat.lt_of_le_of_lt (Nat.zero_le _) h2
  have hne : match_index env symlist sym ≠ max_keysym_index env symlist := Nat.ne_of_lt hlt
  refine ⟨h1, h2, ?_⟩
  unfold CalcModifiersForKeysym
  rw [h]
  simp [hlen, hne]

/-- Claim C10 witness: on the concrete layout the match for keysym 0x41 on
key code 38 is found at index 1, within bounds, and the returned mask is the
candidate at that index. -/
theorem claim_C10_witness :
    match_index env0 [0x61, 0x41] 0x41 < max_keysym_index env0 [0x61, 0x41]
    ∧ CalcModifiersForKeysym env0 38 0x41 =
        (buildMasks env0).getD (match_index env0 [0x61, 0x41] 0x41) 0 :=
  ⟨by decide, ((claim_C10 env0 38 0x41 [0x61, 0x41] rfl).2 (by decide)).2.2⟩

end XSendString
